import Mathlib

set_option maxRecDepth 8000

/-- A Python/JSON value as manipulated by the pyrinth source: the JSON scalars,
arrays and objects, with `null` standing for the Python value `None`. -/
inductive JValue where
  | null : JValue
  | bool (b : Bool) : JValue
  | num (n : Int) : JValue
  | str (s : String) : JValue
  | arr (elems : List JValue) : JValue
  | obj (fields : List (String × JValue)) : JValue

/-- A Python dict with string keys, as an insertion-ordered association list. -/
abbrev JObject : Type := List (String × JValue)

/-- The exceptions the embedded code can raise: the builtin Python exceptions
that subscription and indexing raise, and the pyrinth.exceptions hierarchy as
used at the call sites in the source (InvalidRequestError is raised with no
arguments everywhere, so it carries no payload). -/
inductive PyExc where
  | keyError (k : String)
  | indexError
  | attributeError (a : String)
  | typeError (msg : String)
  | notFoundError (msg : String)
  | noAuthorizationError (msg : String)
  | invalidRequestError
  | invalidParamError (msg : String)
deriving DecidableEq

/-- Python `json[k]` on a dict: the value at the first matching key, or a
KeyError. -/
def dictGet : JObject → String → Except PyExc JValue
  | [], k => .error (.keyError k)
  | (k2, v) :: rest, k => if k2 = k then .ok v else dictGet rest k

/-- Python subscription `value[k]` on an arbitrary value: a TypeError unless
the value is a dict. -/
def dictGetJ (j : JValue) (k : String) : Except PyExc JValue :=
  match j with
  | .obj fields => dictGet fields k
  | _ => .error (.typeError "value is not subscriptable")

/-- Python `d.update(\x7bk: v\x7d)`: replace the value at an existing key in
place, else append the pair. -/
def dictUpdate (d : JObject) (k : String) (v : JValue) : JObject :=
  if d.any (fun kv => kv.1 == k) then
    d.map (fun kv => if kv.1 == k then (k, v) else kv)
  else d ++ [(k, v)]

/-- Python `value is None`. -/
def JValue.isNull : JValue → Bool
  | .null => true
  | _ => false

/-- Python truthiness of a JSON value. -/
def JValue.truthy : JValue → Bool
  | .null => false
  | .bool b => b
  | .num n => n != 0
  | .str s => !s.isEmpty
  | .arr l => !l.isEmpty
  | .obj l => !l.isEmpty

/-- Python `value == s` for a string literal `s`: true exactly when the value
is that string. -/
def JValue.eqStr : JValue → String → Bool
  | .str s, t => s == t
  | _, _ => false

/-- util.remove_null_values: keep exactly the entries whose value is not None,
preserving order. -/
def remove_null_values (json : JObject) : JObject :=
  json.filter (fun kv => !kv.2.isNull)

/-- Python `versions[0]`: IndexError on an empty list. -/
def pyFirst {α : Type} : List α → Except PyExc α
  | [] => .error .indexError
  | x :: _ => .ok x

/-- Python `versions[-1]`: IndexError on an empty list. -/
def pyLast {α : Type} (l : List α) : Except PyExc α :=
  match l.getLast? with
  | some x => .ok x
  | none => .error .indexError

/-- requests.Response.ok: true exactly when the status code is below 400. -/
def responseOk (status : Nat) : Bool := status < 400

theorem pyBind_ok {α β : Type} (a : α) (f : α → Except PyExc β) :
    (Except.ok a >>= f) = f a := rfl

theorem pyPure {α : Type} (a : α) : (pure a : Except PyExc α) = .ok a := rfl

/-- models.ProjectModel: every attribute holds the Python value assigned in
__init__ or from_json; license_id is an Option because the dict branch of
__init__ never assigns the attribute. -/
structure ProjectModel where
  slug : JValue
  title : JValue
  description : JValue
  categories : JValue
  client_side : JValue
  server_side : JValue
  body : JValue
  license_id : Option JValue
  project_type : JValue
  additional_categories : JValue
  issues_url : JValue
  source_url : JValue
  wiki_url : JValue
  discord_url : JValue
  license_url : JValue
  donation_urls : JValue
  id : JValue
  downloads : JValue

/-- models.ProjectModel.__init__: when license_id is a dict a License object is
built from its id, name and url entries and discarded, and the license_id
attribute is left unset; otherwise it stores the argument. donation_urls, id
and downloads start as None. -/
def ProjectModel.init (slug title description categories client_side
    server_side body license_id project_type additional_categories issues_url
    source_url wiki_url discord_url license_url : JValue) :
    Except PyExc ProjectModel :=
  match license_id with
  | .obj o => do
    let _ ← dictGet o "id"
    let _ ← dictGet o "name"
    let _ ← dictGet o "url"
    pure ⟨slug, title, description, categories, client_side, server_side,
      body, none, project_type, additional_categories, issues_url, source_url,
      wiki_url, discord_url, license_url, .null, .null, .null⟩
  | _ =>
    pure ⟨slug, title, description, categories, client_side, server_side,
      body, some license_id, project_type, additional_categories, issues_url,
      source_url, wiki_url, discord_url, license_url, .null, .null, .null⟩

/-- models.ProjectModel.from_json: reads the required keys in source order,
including the nested license object, then assigns id, downloads and
donation_urls from the response. -/
def ProjectModel.from_json (json : JObject) : Except PyExc ProjectModel := do
  let slug ← dictGet json "slug"
  let title ← dictGet json "title"
  let description ← dictGet json "description"
  let categories ← dictGet json "categories"
  let client_side ← dictGet json "client_side"
  let server_side ← dictGet json "server_side"
  let body ← dictGet json "body"
  let license ← dictGet json "license"
  let license_id ← dictGetJ license "id"
  let project_type ← dictGet json "project_type"
  let additional_categories ← dictGet json "additional_categories"
  let issues_url ← dictGet json "issues_url"
  let source_url ← dictGet json "source_url"
  let wiki_url ← dictGet json "wiki_url"
  let discord_url ← dictGet json "discord_url"
  let license2 ← dictGet json "license"
  let license_url ← dictGetJ license2 "url"
  let result ← ProjectModel.init slug title description categories client_side
    server_side body license_id project_type additional_categories issues_url
    source_url wiki_url discord_url license_url
  let id ← dictGet json "id"
  let downloads ← dictGet json "downloads"
  let donation_urls ← dictGet json "donation_urls"
  pure { result with id := id, downloads := downloads,
                     donation_urls := donation_urls }

/-- models.ProjectModel.to_json: the dict literal in source order (with the
flat license_id and license_url keys, is_draft and initial_versions), passed
through remove_null_values; an AttributeError if license_id was never set. -/
def ProjectModel.to_json (m : ProjectModel) : Except PyExc JObject := do
  let lid ← match m.license_id with
    | some v => pure v
    | none => Except.error (.attributeError "license_id")
  pure (remove_null_values
    [("slug", m.slug), ("title", m.title), ("description", m.description),
     ("categories", m.categories), ("client_side", m.client_side),
     ("server_side", m.server_side), ("body", m.body),
     ("license_id", lid), ("project_type", m.project_type),
     ("additional_categories", m.additional_categories),
     ("issues_url", m.issues_url), ("source_url", m.source_url),
     ("wiki_url", m.wiki_url), ("discord_url", m.discord_url),
     ("donation_urls", m.donation_urls), ("license_url", m.license_url),
     ("id", m.id), ("is_draft", .bool true), ("initial_versions", .arr [])])

/-- models.VersionModel: attributes as assigned in __init__. -/
structure VersionModel where
  name : JValue
  version_number : JValue
  changelog : JValue
  dependencies : JValue
  game_versions : JValue
  version_type : JValue
  loaders : JValue
  featured : JValue
  status : JValue
  requested_status : JValue
  files : JValue
  project_id : JValue
  id : JValue
  author_id : JValue
  date_published : JValue
  downloads : JValue

/-- models.VersionModel.__init__ (positional order of the source signature);
project_id, id, author_id, date_published and downloads start as None. -/
def VersionModel.init (name version_number dependencies game_versions
    version_type loaders featured file_parts changelog status
    requested_status : JValue) : VersionModel :=
  ⟨name, version_number, changelog, dependencies, game_versions, version_type,
   loaders, featured, status, requested_status, file_parts, .null, .null,
   .null, .null, .null⟩

/-- models.VersionModel.from_json: reads the keys in source order (note that
it reads the key files, while to_json writes the key file_parts). -/
def VersionModel.from_json (json : JObject) : Except PyExc VersionModel := do
  let name ← dictGet json "name"
  let version_number ← dictGet json "version_number"
  let dependencies ← dictGet json "dependencies"
  let game_versions ← dictGet json "game_versions"
  let version_type ← dictGet json "version_type"
  let loaders ← dictGet json "loaders"
  let featured ← dictGet json "featured"
  let files ← dictGet json "files"
  let changelog ← dictGet json "changelog"
  let status ← dictGet json "status"
  let requested_status ← dictGet json "requested_status"
  pure (VersionModel.init name version_number dependencies game_versions
    version_type loaders featured files changelog status requested_status)

/-- models.VersionModel.to_json: the dict literal in source order (the files
attribute is written under the key file_parts), through remove_null_values. -/
def VersionModel.to_json (m : VersionModel) : JObject :=
  remove_null_values
    [("name", m.name), ("version_number", m.version_number),
     ("changelog", m.changelog), ("dependencies", m.dependencies),
     ("game_versions", m.game_versions), ("version_type", m.version_type),
     ("loaders", m.loaders), ("featured", m.featured),
     ("status", m.status), ("requested_status", m.requested_status),
     ("file_parts", m.files), ("project_id", m.project_id),
     ("id", m.id), ("author_id", m.author_id),
     ("date_published", m.date_published), ("downloads", m.downloads)]

/-- models.UserModel: attributes as assigned in __init__. -/
structure UserModel where
  username : JValue
  id : JValue
  avatar_url : JValue
  created : JValue
  role : JValue
  name : JValue
  email : JValue
  bio : JValue
  payout_data : JValue
  github_id : JValue
  badges : JValue

/-- models.UserModel.from_json: the source constructs a VersionModel (not a
UserModel) from the user fields, passing them positionally into the
VersionModel signature. -/
def UserModel.from_json (json : JObject) : Except PyExc VersionModel := do
  let username ← dictGet json "username"
  let id ← dictGet json "id"
  let avatar_url ← dictGet json "avatar_url"
  let created ← dictGet json "created"
  let role ← dictGet json "role"
  let name ← dictGet json "name"
  let email ← dictGet json "email"
  let bio ← dictGet json "bio"
  let payout_data ← dictGet json "payout_data"
  let github_id ← dictGet json "github_id"
  let badges ← dictGet json "badges"
  pure (VersionModel.init username id avatar_url created role name email bio
    payout_data github_id badges)

/-- models.UserModel.to_json: the dict literal in source order, through
remove_null_values. -/
def UserModel.to_json (m : UserModel) : JObject :=
  remove_null_values
    [("username", m.username), ("id", m.id), ("avatar_url", m.avatar_url),
     ("created", m.created), ("role", m.role), ("name", m.name),
     ("email", m.email), ("bio", m.bio), ("payout_data", m.payout_data),
     ("github_id", m.github_id), ("badges", m.badges)]

/-- models.SearchResultModel: attributes as assigned in __init__. -/
structure SearchResultModel where
  slug : JValue
  title : JValue
  description : JValue
  client_side : JValue
  server_side : JValue
  project_type : JValue
  downloads : JValue
  project_id : JValue
  author : JValue
  versions : JValue
  follows : JValue
  date_created : JValue
  date_modified : JValue
  license : JValue
  categories : JValue
  icon_url : JValue
  color : JValue
  display_categories : JValue
  latest_version : JValue
  gallery : JValue
  featured_gallery : JValue

/-- models.SearchResultModel.from_json: reads the keys in source order and
assigns each attribute directly. -/
def SearchResultModel.from_json (json : JObject) :
    Except PyExc SearchResultModel := do
  let slug ← dictGet json "slug"
  let title ← dictGet json "title"
  let description ← dictGet json "description"
  let client_side ← dictGet json "client_side"
  let server_side ← dictGet json "server_side"
  let project_type ← dictGet json "project_type"
  let downloads ← dictGet json "downloads"
  let project_id ← dictGet json "project_id"
  let author ← dictGet json "author"
  let versions ← dictGet json "versions"
  let follows ← dictGet json "follows"
  let date_created ← dictGet json "date_created"
  let date_modified ← dictGet json "date_modified"
  let license ← dictGet json "license"
  let categories ← dictGet json "categories"
  let icon_url ← dictGet json "icon_url"
  let color ← dictGet json "color"
  let display_categories ← dictGet json "display_categories"
  let latest_version ← dictGet json "latest_version"
  let gallery ← dictGet json "gallery"
  let featured_gallery ← dictGet json "featured_gallery"
  pure ⟨slug, title, description, client_side, server_side, project_type,
    downloads, project_id, author, versions, follows, date_created,
    date_modified, license, categories, icon_url, color, display_categories,
    latest_version, gallery, featured_gallery⟩

/-- models.SearchResultModel.to_json: the dict literal in source order,
through remove_null_values. -/
def SearchResultModel.to_json (m : SearchResultModel) : JObject :=
  remove_null_values
    [("slug", m.slug), ("title", m.title), ("description", m.description),
     ("client_side", m.client_side), ("server_side", m.server_side),
     ("project_type", m.project_type), ("downloads", m.downloads),
     ("project_id", m.project_id), ("author", m.author),
     ("versions", m.versions), ("follows", m.follows),
     ("date_created", m.date_created), ("date_modified", m.date_modified),
     ("license", m.license), ("categories", m.categories),
     ("icon_url", m.icon_url), ("color", m.color),
     ("display_categories", m.display_categories),
     ("latest_version", m.latest_version), ("gallery", m.gallery),
     ("featured_gallery", m.featured_gallery)]

/-- projects.Project.File: attributes as assigned in __init__ (the derived
extension attribute is not needed by any claim and is omitted). -/
structure Project.File where
  hashes : JValue
  url : JValue
  filename : JValue
  primary : JValue
  size : JValue
  file_type : JValue

/-- projects.Project.File.from_json: reads the six keys in source order from
the file descriptor. -/
def Project.File.from_json (json : JValue) : Except PyExc Project.File := do
  let hashes ← dictGetJ json "hashes"
  let url ← dictGetJ json "url"
  let filename ← dictGetJ json "filename"
  let primary ← dictGetJ json "primary"
  let size ← dictGetJ json "size"
  let file_type ← dictGetJ json "file_type"
  pure ⟨hashes, url, filename, primary, size, file_type⟩

/-- projects.Project.License: attributes as assigned in __init__. -/
structure Project.License where
  id : JValue
  name : JValue
  url : JValue

/-- projects.Project.License.to_json: the dict literal, with no
remove_null_values pass. -/
def Project.License.to_json (l : Project.License) : JObject :=
  [("id", l.id), ("name", l.name), ("url", l.url)]

/-- users.User.to_json: the dict literal over the wrapped UserModel in source
order, with no remove_null_values pass. -/
def User.to_json (m : UserModel) : JObject :=
  [("id", m.id), ("github_id", m.github_id), ("username", m.username),
   ("name", m.name), ("email", m.email), ("avatar_url", m.avatar_url),
   ("bio", m.bio), ("created", m.created), ("role", m.role),
   ("badges", m.badges), ("payout_data", m.payout_data)]

/-- projects.Project.Dependency: attributes as assigned in __init__. -/
structure Project.Dependency where
  dependency_type : JValue
  id : JValue
  dependency_option : JValue

/-- projects.Project.Dependency.__init__: stores the three arguments, except
that for a project dependency the stored id is the project id looked up
through the client facade. getProjectId is modelled from the spec: it stands
for Modrinth.get_project(id_).get_id() from the modrinth module, which is not
part of the four source files. -/
def Project.Dependency.init (getProjectId : JValue → Except PyExc JValue)
    (dependency_type id_ dependency_option : JValue) :
    Except PyExc Project.Dependency :=
  if JValue.eqStr dependency_type "project" then do
    let pid ← getProjectId id_
    pure ⟨dependency_type, pid, dependency_option⟩
  else
    pure ⟨dependency_type, id_, dependency_option⟩

/-- projects.Project.Dependency.to_json: a dict whose version_id, project_id
and file_name entries start as None; exactly one of version_id and project_id
is overwritten with the stored id, according to dependency_type; file_name is
never overwritten and no remove_null_values pass is applied. -/
def Project.Dependency.to_json (d : Project.Dependency) : JObject :=
  let result : JObject :=
    [("version_id", .null), ("project_id", .null), ("file_name", .null),
     ("dependency_type", d.dependency_option)]
  if JValue.eqStr d.dependency_type "project" then
    dictUpdate result "project_id" d.id
  else if JValue.eqStr d.dependency_type "version" then
    dictUpdate result "version_id" d.id
  else result

/-- projects.Project.Dependency.from_json: picks the version reference when
the version_id entry is truthy, else the project reference, and passes the
dependency_type entry as the dependency option. -/
def Project.Dependency.from_json (getProjectId : JValue → Except PyExc JValue)
    (json : JValue) : Except PyExc Project.Dependency := do
  let pid ← dictGetJ json "project_id"
  let vid ← dictGetJ json "version_id"
  let dopt ← dictGetJ json "dependency_type"
  if vid.truthy then
    Project.Dependency.init getProjectId (.str "version") vid dopt
  else
    Project.Dependency.init getProjectId (.str "project") pid dopt

/-- projects.Project.get_versions, given the HTTP response for the version
list endpoint (status code and parsed JSON array of version dicts) and the
types filter: 404 raises NotFoundError, any other non-ok status raises
InvalidRequestError, then each dict is wrapped as a Version; a falsy types
argument (None or an empty list) returns every version, otherwise the
versions whose version_type is a member of types are kept in order. -/
def Project.get_versions_run (status : Nat) (content : List JObject)
    (types : Option (List String)) : Except PyExc (List VersionModel) :=
  if status = 404 then
    .error (.notFoundError
      "The requested project was not found or no authorization to see this project")
  else if responseOk status = false then .error .invalidRequestError
  else do
    let versions ← content.mapM VersionModel.from_json
    match types with
    | none => pure versions
    | some ts =>
      if ts.isEmpty then pure versions
      else
        pure (versions.filter
          (fun v => ts.any (fun t => JValue.eqStr v.version_type t)))

/-- projects.Project.get_latest_version: the element at index 0 of the
get_versions result. -/
def Project.get_latest_version_run (status : Nat) (content : List JObject)
    (types : Option (List String)) : Except PyExc VersionModel :=
  (Project.get_versions_run status content types).bind pyFirst

/-- projects.Project.get_oldest_version: the element at index -1 of the
get_versions result. -/
def Project.get_oldest_version_run (status : Nat) (content : List JObject)
    (types : Option (List String)) : Except PyExc VersionModel :=
  (Project.get_versions_run status content types).bind pyLast

/-- The network environment the dependency and download flows run against.
net is r.get(url).content for file downloads; the other three fields are
modelled from the spec, standing for the modrinth module facade, which is not
part of the four source files: projectId is Modrinth.get_project(id).get_id(),
versionById is Modrinth.get_version(id) for a pinned dependency, and
projectVersions is the HTTP response (status and parsed body) that the
version-list endpoint of the referenced project returns. -/
structure PyEnv where
  net : JValue → JValue
  projectId : JValue → Except PyExc JValue
  versionById : JValue → Except PyExc VersionModel
  projectVersions : JValue → Nat × List JObject

/-- projects.Project.Dependency.get_version: a version dependency is fetched
directly by id; otherwise the referenced project is fetched and its
get_latest_version (no filters) is taken. -/
def Project.Dependency.get_version (env : PyEnv) (d : Project.Dependency) :
    Except PyExc VersionModel :=
  if JValue.eqStr d.dependency_type "version" then env.versionById d.id
  else
    Project.get_latest_version_run (env.projectVersions d.id).1
      (env.projectVersions d.id).2 none

/-- projects.Project.Version.get_files: iterates the files attribute of the
model and parses each element as a File. -/
def Project.Version.get_files (m : VersionModel) :
    Except PyExc (List Project.File) :=
  match m.files with
  | .arr l => l.mapM Project.File.from_json
  | _ => .error (.typeError "files is not iterable")

/-- projects.Project.Version.get_dependencies: iterates the dependencies
attribute of the model and parses each element through
Project.Dependency.from_json. -/
def Project.Version.get_dependencies (getProjectId : JValue → Except PyExc JValue)
    (m : VersionModel) : Except PyExc (List Project.Dependency) :=
  match m.dependencies with
  | .arr l => l.mapM (Project.Dependency.from_json getProjectId)
  | _ => .error (.typeError "dependencies is not iterable")

/-- The files of the version a dependency resolves to: the body of the inner
loop of Project.Version.download, files = dep.get_version().get_files(). -/
def Project.Dependency.resolvedFiles (env : PyEnv) (d : Project.Dependency) :
    Except PyExc (List Project.File) :=
  (Project.Dependency.get_version env d).bind Project.Version.get_files

/-- projects.Project.Version.download: fetches each file url with r.get and
writes the content under the declared filename; in recursive mode it then
resolves each declared dependency and does the same for the files of each
resolved version. The result is the list of urls fetched with r.get and the
list of (filename, content) writes, in order. -/
def Project.Version.download (env : PyEnv) (m : VersionModel)
    (recursive : Bool) :
    Except PyExc (List JValue × List (JValue × JValue)) := do
  let files ← Project.Version.get_files m
  let ownReqs := files.map (fun f => f.url)
  let ownWrites := files.map (fun f => (f.filename, env.net f.url))
  if recursive then do
    let deps ← Project.Version.get_dependencies env.projectId m
    let depFiles ← deps.mapM (Project.Dependency.resolvedFiles env)
    let depReqs := (depFiles.map (fun fs => fs.map (fun f => f.url))).flatten
    let depWrites := (depFiles.map
      (fun fs => fs.map (fun f => (f.filename, env.net f.url)))).flatten
    pure (ownReqs ++ depReqs, ownWrites ++ depWrites)
  else
    pure (ownReqs, ownWrites)

/-- users.User.from_auth, restricted to its handling of the HTTP status code:
401 raises InvalidParamError, any other non-ok status raises
InvalidRequestError. -/
def User.from_auth_status (status : Nat) : Except PyExc Unit :=
  if status = 401 then .error (.invalidParamError "No authorization token given")
  else if responseOk status = false then .error .invalidRequestError
  else .ok ()

/-- projects.Project.delete, restricted to its handling of the HTTP status
code: 400 raises NotFoundError, 401 raises NoAuthorizationError, any other
non-ok status (404 included) raises InvalidRequestError. -/
def Project.delete_status (status : Nat) : Except PyExc Unit :=
  if status = 400 then
    .error (.notFoundError "The requested project was not found")
  else if status = 401 then
    .error (.noAuthorizationError "No authorization to delete this project")
  else if responseOk status = false then .error .invalidRequestError
  else .ok ()

/-- The optional arguments of projects.Project.modify; a null field is an
argument left at its None default. -/
structure ModifyArgs where
  slug : JValue
  title : JValue
  description : JValue
  categories : JValue
  client_side : JValue
  server_side : JValue
  body : JValue
  additional_categories : JValue
  issues_url : JValue
  source_url : JValue
  wiki_url : JValue
  discord_url : JValue
  license_id : JValue
  license_url : JValue
  status : JValue
  requested_status : JValue
  moderation_message : JValue
  moderation_message_body : JValue

/-- The modified_json dict literal of projects.Project.modify, in source
order. -/
def ModifyArgs.toPairs (a : ModifyArgs) : JObject :=
  [("slug", a.slug), ("title", a.title), ("description", a.description),
   ("categories", a.categories), ("client_side", a.client_side),
   ("server_side", a.server_side), ("body", a.body),
   ("additional_categories", a.additional_categories),
   ("issues_url", a.issues_url), ("source_url", a.source_url),
   ("wiki_url", a.wiki_url), ("discord_url", a.discord_url),
   ("license_id", a.license_id), ("license_url", a.license_url),
   ("status", a.status), ("requested_status", a.requested_status),
   ("moderation_message", a.moderation_message),
   ("moderation_message_body", a.moderation_message_body)]

/-- projects.Project.modify: strips the null arguments; if nothing remains it
raises InvalidParamError before any request is issued, otherwise it sends the
PATCH request whose body is the stripped dict and maps the response status
(401 to NoAuthorizationError, 404 to NotFoundError, other non-ok to
InvalidRequestError). The first component is the list of issued requests,
each represented by its JSON body. -/
def Project.modify_run (a : ModifyArgs) (status : Nat) :
    List JObject × Except PyExc Bool :=
  let modified_json := remove_null_values a.toPairs
  if modified_json.isEmpty then
    ([], .error (.invalidParamError "Please specify at least 1 optional argument."))
  else
    ([modified_json],
      if status = 401 then
        .error (.noAuthorizationError "No authorization to edit this project")
      else if status = 404 then
        .error (.notFoundError
          "The requested project was not found or no authorization to see this project")
      else if responseOk status = false then .error .invalidRequestError
      else .ok true)


/-- A fully populated ProjectModel, as parsed from a project response. -/
def pm0 : ProjectModel :=
  { slug := .str "sodium", title := .str "Sodium", description := .str "d",
    categories := .arr [.str "optimization"], client_side := .str "required",
    server_side := .str "unsupported", body := .str "b",
    license_id := some (.str "MIT"), project_type := .str "mod",
    additional_categories := .arr [], issues_url := .str "iu",
    source_url := .str "su", wiki_url := .str "wu", discord_url := .str "du",
    license_url := .str "lu", donation_urls := .arr [], id := .str "AANobbMI",
    downloads := .num 100 }

/-- A fully populated VersionModel. -/
def vm1 : VersionModel :=
  { name := .str "Sodium 0.5", version_number := .str "0.5.0",
    changelog := .str "c", dependencies := .arr [],
    game_versions := .arr [.str "1.20"], version_type := .str "release",
    loaders := .arr [.str "fabric"], featured := .bool true,
    status := .str "listed", requested_status := .str "listed",
    files := .arr [], project_id := .str "p", id := .str "v",
    author_id := .str "a", date_published := .str "t", downloads := .num 5 }

/-- A fully populated UserModel. -/
def um0 : UserModel :=
  { username := .str "jellysquid3", id := .str "uid", avatar_url := .str "av",
    created := .str "cr", role := .str "developer", name := .str "J",
    email := .str "e", bio := .str "b", payout_data := .str "pd",
    github_id := .str "gh", badges := .num 3 }

/-- Claim C1, counterexample: the round trip fails on three of the four model
types even with every field non-null. For ProjectModel, to_json emits the
flat keys license_id and license_url while from_json demands a nested license
object, so from_json(to_json(pm0)) raises KeyError license. For VersionModel,
to_json writes the files under the key file_parts while from_json reads the
key files, so the round trip raises KeyError files. For UserModel, from_json
constructs a VersionModel whose fields are the user fields shifted
positionally, not a UserModel equivalent to the input. -/
theorem C1_model_round_trip_counterexample :
    (ProjectModel.to_json pm0).bind ProjectModel.from_json
        = .error (.keyError "license")
    ∧ VersionModel.from_json (VersionModel.to_json vm1)
        = .error (.keyError "files")
    ∧ UserModel.from_json (UserModel.to_json um0)
        = .ok (VersionModel.init (.str "jellysquid3") (.str "uid")
            (.str "av") (.str "cr") (.str "developer") (.str "J") (.str "e")
            (.str "b") (.str "pd") (.str "gh") (.num 3)) :=
  ⟨rfl, rfl, rfl⟩

/-- Claim C1, amended: the round trip does hold for SearchResultModel when
every field is non-null, and the to_json output of a SearchResultModel never
maps a key to an explicit null. -/
theorem C1_search_result_round_trip (m : SearchResultModel)
    (h1 : m.slug.isNull = false) (h2 : m.title.isNull = false)
    (h3 : m.description.isNull = false) (h4 : m.client_side.isNull = false)
    (h5 : m.server_side.isNull = false) (h6 : m.project_type.isNull = false)
    (h7 : m.downloads.isNull = false) (h8 : m.project_id.isNull = false)
    (h9 : m.author.isNull = false) (h10 : m.versions.isNull = false)
    (h11 : m.follows.isNull = false) (h12 : m.date_created.isNull = false)
    (h13 : m.date_modified.isNull = false) (h14 : m.license.isNull = false)
    (h15 : m.categories.isNull = false) (h16 : m.icon_url.isNull = false)
    (h17 : m.color.isNull = false) (h18 : m.display_categories.isNull = false)
    (h19 : m.latest_version.isNull = false) (h20 : m.gallery.isNull = false)
    (h21 : m.featured_gallery.isNull = false) :
    SearchResultModel.from_json (SearchResultModel.to_json m) = .ok m
    ∧ ∀ p ∈ SearchResultModel.to_json m, p.2.isNull = false := by
  constructor
  · simp [SearchResultModel.from_json, SearchResultModel.to_json,
      remove_null_values, dictGet, h1, h2, h3, h4, h5, h6, h7, h8, h9, h10,
      h11, h12, h13, h14, h15, h16, h17, h18, h19, h20, h21, pyBind_ok,
      pyPure]
  · intro p hp
    simp only [SearchResultModel.to_json, remove_null_values] at hp
    have hmem := List.of_mem_filter hp
    simpa using hmem

/-- A fully populated SearchResultModel. -/
def sr0 : SearchResultModel :=
  { slug := .str "sodium", title := .str "Sodium", description := .str "d",
    client_side := .str "required", server_side := .str "unsupported",
    project_type := .str "mod", downloads := .num 100,
    project_id := .str "AANobbMI", author := .str "jellysquid3",
    versions := .arr [.str "v1"], follows := .num 7,
    date_created := .str "dc", date_modified := .str "dm",
    license := .str "MIT", categories := .arr [.str "optimization"],
    icon_url := .str "ic", color := .num 255,
    display_categories := .arr [.str "optimization"],
    latest_version := .str "v1", gallery := .arr [],
    featured_gallery := .str "fg" }

/-- Witness for C1_search_result_round_trip at the concrete model sr0. -/
theorem C1_search_result_round_trip_witness :
    SearchResultModel.from_json (SearchResultModel.to_json sr0) = .ok sr0 :=
  (C1_search_result_round_trip sr0 rfl rfl rfl rfl rfl rfl rfl rfl rfl rfl
    rfl rfl rfl rfl rfl rfl rfl rfl rfl rfl rfl).1

/-- Claim C2, counterexample: three of the cited call sites violate the
claimed status mapping. User.from_auth maps 401 to InvalidParamError, not to
NoAuthorizationError; Project.delete maps 404 to the generic
InvalidRequestError, not to NotFoundError; Project.get_versions maps 401 to
the generic InvalidRequestError, not to NoAuthorizationError. -/
theorem C2_error_mapping_counterexample :
    User.from_auth_status 401
      = .error (.invalidParamError "No authorization token given")
    ∧ Project.delete_status 404 = .error .invalidRequestError
    ∧ Project.get_versions_run 401 [] none = .error .invalidRequestError :=
  ⟨rfl, rfl, rfl⟩

/-- Claim C2, amended: the actual per-function mapping. User.from_auth maps
401 to InvalidParamError and any other status of 400 and above to
InvalidRequestError; Project.delete maps 400 to NotFoundError, 401 to
NoAuthorizationError and any other status of 400 and above (404 included) to
InvalidRequestError; Project.get_versions maps 404 to NotFoundError and any
other status of 400 and above (401 included) to InvalidRequestError; the
error kinds involved are distinct constructors, so the caller can
discriminate them; the generic InvalidRequestError carries no payload. -/
theorem C2_status_error_mapping (s : Nat) (h : responseOk s = false) :
    User.from_auth_status s =
      (if s = 401 then
        .error (.invalidParamError "No authorization token given")
       else .error .invalidRequestError)
    ∧ Project.delete_status s =
      (if s = 400 then
        .error (.notFoundError "The requested project was not found")
       else if s = 401 then
        .error (.noAuthorizationError "No authorization to delete this project")
       else .error .invalidRequestError)
    ∧ Project.get_versions_run s [] none =
      (if s = 404 then
        .error (.notFoundError
          "The requested project was not found or no authorization to see this project")
       else .error .invalidRequestError)
    ∧ (∀ m1 m2, PyExc.notFoundError m1 ≠ PyExc.noAuthorizationError m2)
    ∧ (∀ m1, PyExc.notFoundError m1 ≠ PyExc.invalidRequestError)
    ∧ (∀ m1, PyExc.noAuthorizationError m1 ≠ PyExc.invalidRequestError)
    ∧ (∀ m1 m2, PyExc.invalidParamError m1 ≠ PyExc.noAuthorizationError m2) := by
  refine ⟨?_, ?_, ?_, ?_, ?_, ?_, ?_⟩
  · by_cases h1 : s = 401 <;> simp [User.from_auth_status, h, h1]
  · by_cases h0 : s = 400 <;> by_cases h1 : s = 401 <;>
      simp [Project.delete_status, h, h0, h1]
  · by_cases h4 : s = 404 <;> simp [Project.get_versions_run, h, h4]
  · intro m1 m2 hEq; exact PyExc.noConfusion hEq
  · intro m1 hEq; exact PyExc.noConfusion hEq
  · intro m1 hEq; exact PyExc.noConfusion hEq
  · intro m1 m2 hEq; exact PyExc.noConfusion hEq

/-- Witness for C2_status_error_mapping at status 401. -/
theorem C2_status_error_mapping_witness :
    User.from_auth_status 401
      = .error (.invalidParamError "No authorization token given")
    ∧ Project.delete_status 401
      = .error (.noAuthorizationError "No authorization to delete this project")
    ∧ Project.get_versions_run 401 [] none = .error .invalidRequestError := by
  have h := C2_status_error_mapping 401 (by decide)
  exact ⟨by simpa using h.1, by simpa using h.2.1, by simpa using h.2.2.1⟩

/-- A release version dict as the version-list endpoint returns it. -/
def vj0 : JObject :=
  [("name", .str "v1"), ("version_number", .str "1.0.0"),
   ("dependencies", .arr []), ("game_versions", .arr [.str "1.20"]),
   ("version_type", .str "release"), ("loaders", .arr [.str "fabric"]),
   ("featured", .bool true), ("files", .arr []),
   ("changelog", .str "c"), ("status", .str "listed"),
   ("requested_status", .str "listed")]

/-- The VersionModel that vj0 parses to. -/
def vmRelease : VersionModel :=
  VersionModel.init (.str "v1") (.str "1.0.0") (.arr [])
    (.arr [.str "1.20"]) (.str "release") (.arr [.str "fabric"])
    (.bool true) (.arr []) (.str "c") (.str "listed") (.str "listed")

/-- A beta version dict, older than vj0 in the newest-first server order. -/
def vj2 : JObject :=
  [("name", .str "v2"), ("version_number", .str "0.9.0"),
   ("dependencies", .arr []), ("game_versions", .arr [.str "1.19"]),
   ("version_type", .str "beta"), ("loaders", .arr [.str "fabric"]),
   ("featured", .bool false), ("files", .arr []),
   ("changelog", .null), ("status", .str "listed"),
   ("requested_status", .str "listed")]

/-- The VersionModel that vj2 parses to. -/
def vmBeta : VersionModel :=
  VersionModel.init (.str "v2") (.str "0.9.0") (.arr [])
    (.arr [.str "1.19"]) (.str "beta") (.arr [.str "fabric"])
    (.bool false) (.arr []) .null (.str "listed") (.str "listed")

/-- Claim C10, counterexample: for the non-null types filter given as the
empty list, Project.get_versions returns every version of the response (the
Python falsiness check treats an empty list like None), although no
version_type is a member of the empty filter, so the claimed result would be
the empty list. -/
theorem C10_empty_types_counterexample :
    Project.get_versions_run 200 [vj0] (some []) = .ok [vmRelease]
    ∧ Project.get_versions_run 200 [vj0] (some []) ≠ .ok [] := by
  constructor
  · rfl
  · intro hEq
    rw [show Project.get_versions_run 200 [vj0] (some [])
          = .ok [vmRelease] from rfl] at hEq
    simp at hEq

/-- Claim C10, amended: on an ok response, Project.get_versions with types
equal to None or to the empty list returns every version of the response in
server order, and with a non-empty types list it returns exactly the
versions whose version_type is a member of types, in the same relative
order (an order-preserving filter). -/
theorem C10_types_filter (status : Nat) (content : List JObject)
    (versions : List VersionModel) (types : List String)
    (hok : responseOk status = true)
    (hp : content.mapM VersionModel.from_json = .ok versions) :
    Project.get_versions_run status content none = .ok versions
    ∧ Project.get_versions_run status content (some []) = .ok versions
    ∧ (types ≠ [] →
        Project.get_versions_run status content (some types)
          = .ok (versions.filter
              (fun v => types.any (fun t => JValue.eqStr v.version_type t)))) := by
  have h404 : status ≠ 404 := by
    intro e
    subst e
    simp [responseOk] at hok
  have hok2 : (responseOk status = false) = False := by simp [hok]
  have hp2 : List.mapM.loop VersionModel.from_json content []
      = Except.ok versions := hp
  refine ⟨?_, ?_, ?_⟩
  · simp [Project.get_versions_run, h404, hok2, hp2, pyBind_ok, pyPure]
  · simp [Project.get_versions_run, h404, hok2, hp2, pyBind_ok, pyPure]
  · intro hne
    have hne2 : types.isEmpty = false := by
      cases types with
      | nil => exact absurd rfl hne
      | cons a l => rfl
    simp [Project.get_versions_run, h404, hok2, hp2, hne2, pyBind_ok, pyPure]

/-- Witness for C10_types_filter: an alpha filter removes the only release
version. -/
theorem C10_types_filter_witness :
    Project.get_versions_run 200 [vj0] (some ["alpha"]) = .ok [] := by
  have h := C10_types_filter 200 [vj0] [vmRelease] ["alpha"] (by decide) rfl
  have h3 := h.2.2 (by simp)
  simpa [vmRelease, VersionModel.init, JValue.eqStr] using h3

/-- Claim C4: on a non-empty version list, get_latest_version returns the
first element and get_oldest_version returns the last element of the
server-ordered list; on an empty version list, however, both raise an
IndexError (versions[0] and versions[-1] on an empty list) instead of
returning the explicit absence signal the claim demands. -/
theorem C4_version_list_ends_eval :
    Project.get_latest_version_run 200 [] none = .error .indexError
    ∧ Project.get_oldest_version_run 200 [] none = .error .indexError
    ∧ Project.get_latest_version_run 200 [vj0, vj2] none = .ok vmRelease
    ∧ Project.get_oldest_version_run 200 [vj0, vj2] none = .ok vmBeta :=
  ⟨rfl, rfl, rfl, rfl⟩

/-- The network for the dependency-resolution evaluation: version V1 exists,
project P1 has exactly one published version and project P0 has none. -/
def envC3 : PyEnv :=
  { net := fun _ => .str "bytes",
    projectId := fun j => .ok j,
    versionById := fun i =>
      if JValue.eqStr i "V1" then .ok vmRelease
      else .error (.notFoundError "The requested version was not found"),
    projectVersions := fun i =>
      if JValue.eqStr i "P1" then (200, [vj2]) else (200, []) }

/-- Claim C3: a version-reference Dependency is resolved by fetching the
version directly by id, and a project-reference Dependency by taking the
first element of the referenced project versions list; but for a referenced
project with zero published versions the resolution raises exactly an
IndexError (versions[0] on the empty list), not the distinct resolution
error the claim demands. -/
theorem C3_dependency_resolution_eval :
    Project.Dependency.get_version envC3
        ⟨.str "version", .str "V1", .str "required"⟩ = .ok vmRelease
    ∧ Project.Dependency.get_version envC3
        ⟨.str "project", .str "P1", .str "required"⟩ = .ok vmBeta
    ∧ Project.Dependency.get_version envC3
        ⟨.str "project", .str "P0", .str "required"⟩ = .error .indexError :=
  ⟨rfl, rfl, rfl⟩

/-- A user whose optional profile fields are all None. -/
def userNoOptional : UserModel :=
  { username := .str "u", id := .str "i", avatar_url := .str "a",
    created := .str "c", role := .str "developer", name := .null,
    email := .null, bio := .null, payout_data := .null, github_id := .null,
    badges := .null }

/-- Claim C5: the three serializers the claim names do emit explicit nulls.
users.User.to_json maps the key name to null for a user without a display
name, Project.License.to_json maps url to null for a license without a url,
and Project.Dependency.to_json always maps file_name (and the unused one of
version_id and project_id) to null; none of the three applies
remove_null_values. By contrast, the model-layer serializer
models.UserModel.to_json strips every null, as the claim describes. -/
theorem C5_explicit_null_eval :
    ("name", JValue.null) ∈ User.to_json userNoOptional
    ∧ ("url", JValue.null)
        ∈ Project.License.to_json ⟨.str "MIT", .str "MIT License", .null⟩
    ∧ ("file_name", JValue.null)
        ∈ Project.Dependency.to_json ⟨.str "version", .str "V1", .str "required"⟩
    ∧ ("project_id", JValue.null)
        ∈ Project.Dependency.to_json ⟨.str "version", .str "V1", .str "required"⟩
    ∧ ∀ p ∈ UserModel.to_json userNoOptional, p.2.isNull = false := by
  refine ⟨?_, ?_, ?_, ?_, ?_⟩
  · simp [User.to_json, userNoOptional]
  · simp [Project.License.to_json]
  · simp [Project.Dependency.to_json, dictUpdate, JValue.eqStr]
  · simp [Project.Dependency.to_json, dictUpdate, JValue.eqStr]
  · intro p hp
    simp only [UserModel.to_json, remove_null_values] at hp
    have hmem := List.of_mem_filter hp
    simpa using hmem

/-- Claim C6: Project.modify with every optional argument left at None
raises InvalidParamError with no request issued; with at least one non-None
argument it issues exactly one request whose body holds exactly the non-None
fields. -/
theorem C6_modify_requires_field (a : ModifyArgs) (s : Nat) :
    ((∀ p ∈ a.toPairs, p.2.isNull = true) →
      Project.modify_run a s
        = ([], .error
            (.invalidParamError "Please specify at least 1 optional argument.")))
    ∧ ((∃ p ∈ a.toPairs, p.2.isNull = false) →
        ∃ b, (Project.modify_run a s).1 = [b]
          ∧ ∀ k v, ((k, v) ∈ b ↔ ((k, v) ∈ a.toPairs ∧ v.isNull = false))) := by
  constructor
  · intro hall
    have hnil : remove_null_values a.toPairs = [] := by
      rw [remove_null_values, List.filter_eq_nil_iff]
      intro p hp
      simp [hall p hp]
    simp [Project.modify_run, hnil]
  · rintro ⟨p, hp, hpn⟩
    have hmem : p ∈ remove_null_values a.toPairs := by
      rw [remove_null_values, List.mem_filter]
      exact ⟨hp, by simp [hpn]⟩
    have hne : (remove_null_values a.toPairs).isEmpty = false := by
      cases hq : remove_null_values a.toPairs with
      | nil => rw [hq] at hmem; cases hmem
      | cons x xs => rfl
    refine ⟨remove_null_values a.toPairs, ?_, ?_⟩
    · simp [Project.modify_run, hne]
    · intro k v
      rw [remove_null_values, List.mem_filter]
      simp

/-- The modify call with every optional argument left at None. -/
def modifyArgsNone : ModifyArgs :=
  ⟨.null, .null, .null, .null, .null, .null, .null, .null, .null, .null,
   .null, .null, .null, .null, .null, .null, .null, .null⟩

/-- The modify call changing only the slug. -/
def modifyArgsSlug : ModifyArgs :=
  ⟨.str "new-slug", .null, .null, .null, .null, .null, .null, .null, .null,
   .null, .null, .null, .null, .null, .null, .null, .null, .null⟩

/-- Witness for C6_modify_requires_field at the all-None call and at a
slug-only call. -/
theorem C6_modify_requires_field_witness :
    Project.modify_run modifyArgsNone 200
      = ([], .error
          (.invalidParamError "Please specify at least 1 optional argument."))
    ∧ ∃ b, (Project.modify_run modifyArgsSlug 200).1 = [b]
        ∧ ∀ k v, ((k, v) ∈ b
            ↔ ((k, v) ∈ modifyArgsSlug.toPairs ∧ v.isNull = false)) :=
  ⟨(C6_modify_requires_field modifyArgsNone 200).1 (by decide),
   (C6_modify_requires_field modifyArgsSlug 200).2
     ⟨("slug", .str "new-slug"), List.Mem.head _, rfl⟩⟩

theorem JValue.eqStr_unique {j : JValue} {a b : String}
    (ha : JValue.eqStr j a = true) (hb : JValue.eqStr j b = true) : a = b := by
  cases j with
  | str s =>
    simp [JValue.eqStr] at ha hb
    rw [← ha, ← hb]
  | null => simp [JValue.eqStr] at ha
  | bool x => simp [JValue.eqStr] at ha
  | num x => simp [JValue.eqStr] at ha
  | arr x => simp [JValue.eqStr] at ha
  | obj x => simp [JValue.eqStr] at ha

/-- A Dependency constructed with a dependency_type that is neither project
nor version; the constructor accepts it without resolving anything. -/
def depNeither : Project.Dependency :=
  ⟨.str "required", .str "fabric-api", .str "required"⟩

/-- Claim C7, counterexample: the Dependency constructor accepts a
dependency_type other than project and version, and the to_json output of
the constructed object then maps both version_id and project_id to null, so
it is not the case that exactly one of the two references is populated. -/
theorem C7_dependency_reference_counterexample :
    Project.Dependency.init (fun j => Except.ok j) (.str "required")
        (.str "fabric-api") (.str "required") = .ok depNeither
    ∧ dictGet (Project.Dependency.to_json depNeither) "version_id"
        = .ok .null
    ∧ dictGet (Project.Dependency.to_json depNeither) "project_id"
        = .ok .null :=
  ⟨rfl, rfl, rfl⟩

/-- Claim C7, amended: in every Dependency to_json output at most one of
version_id and project_id is non-null, and for a dependency_type of project
(respectively version) exactly the project_id (respectively version_id)
entry carries the stored id while the other is null — so exactly one
reference is populated whenever dependency_type is one of the two reference
kinds and the stored id is non-null. -/
theorem C7_dependency_reference_at_most_one (d : Project.Dependency) :
    (∃ v p, dictGet (Project.Dependency.to_json d) "version_id" = .ok v
      ∧ dictGet (Project.Dependency.to_json d) "project_id" = .ok p
      ∧ (v.isNull || p.isNull) = true)
    ∧ (JValue.eqStr d.dependency_type "project" = true →
        dictGet (Project.Dependency.to_json d) "project_id" = .ok d.id
        ∧ dictGet (Project.Dependency.to_json d) "version_id" = .ok .null)
    ∧ (JValue.eqStr d.dependency_type "version" = true →
        dictGet (Project.Dependency.to_json d) "version_id" = .ok d.id
        ∧ dictGet (Project.Dependency.to_json d) "project_id" = .ok .null) := by
  cases hp : JValue.eqStr d.dependency_type "project" with
  | true =>
    refine ⟨⟨.null, d.id, ?_, ?_, ?_⟩, fun _ => ⟨?_, ?_⟩,
      fun hv => absurd (JValue.eqStr_unique hp hv) (by decide)⟩
    all_goals simp [Project.Dependency.to_json, hp, dictUpdate, dictGet,
      JValue.isNull]
  | false =>
    cases hv : JValue.eqStr d.dependency_type "version" with
    | true =>
      refine ⟨⟨d.id, .null, ?_, ?_, ?_⟩,
        fun hp2 => absurd hp2 (by simp),
        fun _ => ⟨?_, ?_⟩⟩
      all_goals simp [Project.Dependency.to_json, hp, hv, dictUpdate,
        dictGet, JValue.isNull]
    | false =>
      refine ⟨⟨.null, .null, ?_, ?_, ?_⟩,
        fun hp2 => absurd hp2 (by simp),
        fun hv2 => absurd hv2 (by simp)⟩
      all_goals simp [Project.Dependency.to_json, hp, hv, dictUpdate,
        dictGet, JValue.isNull]

/-- Witness for C7_dependency_reference_at_most_one at a project
dependency. -/
theorem C7_dependency_reference_at_most_one_witness :
    dictGet (Project.Dependency.to_json
        ⟨.str "project", .str "P1", .str "required"⟩) "project_id"
      = .ok (.str "P1")
    ∧ dictGet (Project.Dependency.to_json
        ⟨.str "project", .str "P1", .str "required"⟩) "version_id"
      = .ok .null :=
  (C7_dependency_reference_at_most_one
    ⟨.str "project", .str "P1", .str "required"⟩).2.1 (by decide)

/-- Claim C8: downloading a version in non-recursive mode whose file list is
the single file mod.jar at some url writes exactly the one file mod.jar with
the bytes fetched from that url, fetches exactly that one url and writes
nothing else. -/
theorem C8_single_file_download (env : PyEnv) (m : VersionModel)
    (hs url hp sz ft : JValue)
    (hf : m.files = .arr [.obj
      [("hashes", hs), ("url", url), ("filename", .str "mod.jar"),
       ("primary", hp), ("size", sz), ("file_type", ft)]]) :
    Project.Version.download env m false
      = .ok ([url], [(.str "mod.jar", env.net url)]) := by
  simp [Project.Version.download, Project.Version.get_files, hf,
    Project.File.from_json, dictGetJ, dictGet, pyBind_ok, pyPure,
    List.mapM.loop]

/-- A file descriptor with the given filename and url. -/
def fileObj (name url : String) : JValue :=
  .obj [("hashes", .obj []), ("url", .str url), ("filename", .str name),
        ("primary", .bool true), ("size", .num 10), ("file_type", .null)]

/-- A dependency descriptor pinning the given version id. -/
def depObj (vid : String) : JValue :=
  .obj [("version_id", .str vid), ("project_id", .null),
        ("file_name", .null), ("dependency_type", .str "required")]

/-- A version whose file list is exactly one file named mod.jar. -/
def vmSingleFile : VersionModel :=
  VersionModel.init (.str "main") (.str "2.0.0") (.arr []) (.arr [])
    (.str "release") (.arr []) (.bool true)
    (.arr [fileObj "mod.jar" "https://cdn.example/mod.jar"])
    .null .null .null

/-- A network on which every content fetch returns the same bytes. -/
def env0 : PyEnv :=
  { net := fun _ => .str "JARBYTES",
    projectId := fun j => .ok j,
    versionById := fun _ =>
      .error (.notFoundError "The requested version was not found"),
    projectVersions := fun _ => (200, []) }

/-- Witness for C8_single_file_download at the concrete version
vmSingleFile. -/
theorem C8_single_file_download_witness :
    Project.Version.download env0 vmSingleFile false
      = .ok ([.str "https://cdn.example/mod.jar"],
             [(.str "mod.jar", .str "JARBYTES")]) := by
  have h := C8_single_file_download env0 vmSingleFile (.obj [])
    (.str "https://cdn.example/mod.jar") (.bool true) (.num 10) .null rfl
  simpa [env0] using h

/-- Claim C9: downloading a version in recursive mode writes the files of
the version itself followed by, for each declared dependency in order, the
files of the version that dependency resolves to — exactly one level: the
writes are fully determined by the own files and the resolved versions of
the direct dependencies, so dependencies of dependencies are never resolved
or downloaded. -/
theorem C9_recursive_download_one_level (env : PyEnv) (m : VersionModel)
    (fs : List Project.File) (deps : List Project.Dependency)
    (depFiles : List (List Project.File))
    (h1 : Project.Version.get_files m = .ok fs)
    (h2 : Project.Version.get_dependencies env.projectId m = .ok deps)
    (h3 : deps.mapM (Project.Dependency.resolvedFiles env) = .ok depFiles) :
    Project.Version.download env m true
      = .ok (fs.map (fun f => f.url)
               ++ (depFiles.map (fun l => l.map (fun f => f.url))).flatten,
             fs.map (fun f => (f.filename, env.net f.url))
               ++ (depFiles.map
                   (fun l => l.map
                     (fun f => (f.filename, env.net f.url)))).flatten) := by
  have h3b : List.mapM.loop (Project.Dependency.resolvedFiles env) deps []
      = Except.ok depFiles := h3
  simp [Project.Version.download, h1, h2, h3b, pyBind_ok, pyPure]

/-- A version two dependency levels deep; its file must never be written. -/
def vmDeep : VersionModel :=
  VersionModel.init (.str "deep") (.str "0.1.0") (.arr []) (.arr [])
    (.str "release") (.arr []) (.bool true)
    (.arr [fileObj "deep.jar" "u-deep"]) .null .null .null

/-- The direct dependency version: one file, and one own dependency on
vmDeep. -/
def vmDep : VersionModel :=
  VersionModel.init (.str "dep") (.str "1.0.0") (.arr [depObj "V9"])
    (.arr []) (.str "release") (.arr []) (.bool true)
    (.arr [fileObj "dep.jar" "u-dep"]) .null .null .null

/-- The downloaded version: one file and one pinned dependency on vmDep. -/
def vmMain : VersionModel :=
  VersionModel.init (.str "main") (.str "2.0.0") (.arr [depObj "V1"])
    (.arr []) (.str "release") (.arr []) (.bool true)
    (.arr [fileObj "mod.jar" "u-main"]) .null .null .null

/-- The network for the recursive download: V1 is vmDep and V9 is vmDeep;
the content of a url is the url itself. -/
def envC9 : PyEnv :=
  { net := fun u => u,
    projectId := fun j => .ok j,
    versionById := fun i =>
      if JValue.eqStr i "V1" then .ok vmDep
      else if JValue.eqStr i "V9" then .ok vmDeep
      else .error (.notFoundError "The requested version was not found"),
    projectVersions := fun _ => (200, []) }

/-- Witness for C9_recursive_download_one_level: the recursive download of
vmMain writes mod.jar and dep.jar but not deep.jar, although the resolved
dependency vmDep declares a dependency on vmDeep. -/
theorem C9_recursive_download_one_level_witness :
    Project.Version.download envC9 vmMain true
      = .ok ([.str "u-main", .str "u-dep"],
             [(.str "mod.jar", .str "u-main"),
              (.str "dep.jar", .str "u-dep")]) := by
  have h := C9_recursive_download_one_level envC9 vmMain
    [⟨.obj [], .str "u-main", .str "mod.jar", .bool true, .num 10, .null⟩]
    [⟨.str "version", .str "V1", .str "required"⟩]
    [[⟨.obj [], .str "u-dep", .str "dep.jar", .bool true, .num 10, .null⟩]]
    rfl rfl rfl
  simpa [envC9] using h
